import Mathlib

/-
Shallow embedding of Bio/SearchIO/_objects.py (Biopython SearchIO object
model): QueryResult / Hit / HSP containers, the HSP metric algebra, and the
contiguous / segmented HSP variants, together with proofs of the behavioural
claims about them.

Modelling conventions:
- Python exceptions are modelled by the `PyErr` type.  Getters that may
  compute-and-cache return `Except PyErr (value × state)`; mutating container
  operations return `Option PyErr × state` (the state component is the state
  of `self` when the call returns or raises; all raises in the source happen
  before any mutation of the raising object).
- Dynamic ("duck-typed") instance attributes that may be unset are modelled
  as `Option` fields; `none` means the attribute has never been assigned.
- Python `float` arithmetic on metric percentages is modelled with `Rat`
  (the values in the claims are exactly representable).
- Alphabet objects are modelled by their tag, a `String`.
-/

/-- Python exception values relevant to this module. -/
inductive PyErr where
  | attributeError (msg : String)
  | valueError (msg : String)
  | typeError (msg : String)
  | keyError (msg : String)
  | indexError (msg : String)
  | zeroDivisionError
deriving DecidableEq

/-- The default alphabet tag, Bio.Alphabet.single_letter_alphabet. -/
def single_letter_alphabet : String := "single-letter"

/-- Model of Bio.SeqRecord.SeqRecord wrapping a Seq: residues, the alphabet
tag of the wrapped Seq, and the id / name / description fields. -/
structure SeqRecord where
  seq : String
  alphabet : String
  id : String
  name : String
  description : String
deriving DecidableEq

/-- A value acceptable as a sequence argument to HSP._prep_seq: either a raw
string of residues or an existing SeqRecord. -/
inductive PySeq where
  | str (s : String)
  | srec (r : SeqRecord)
deriving DecidableEq

/-- Python truthiness of a sequence argument: empty strings are falsy, and a
SeqRecord delegates truthiness to its length (the sequence capability has a
length operation returning the residue count). -/
def PySeq.truthy : PySeq → Bool
  | PySeq.str s => !s.isEmpty
  | PySeq.srec r => !r.seq.isEmpty

/-- State of the HSP base class (class HSP in the source).  `hit_id`,
`query_id`, `alphabet` and the annotation mapping are assigned by
HSP.__init__; the remaining fields model the dynamic private attributes of
the metric algebra (`self._ali_len`, `self._ident_num`, ...) plus the plain
`pos_num` attribute read by `_pos_pct_get`; `none` means never assigned. -/
structure HSP where
  hit_id : String
  query_id : String
  alphabet : String
  alignment_annotation : List (String × String) := []
  _ali_len : Option Int := none
  _ident_num : Option Int := none
  _mismatch_num : Option Int := none
  _gap_num : Option Int := none
  _ident_pct : Option Rat := none
  _pos_pct : Option Rat := none
  _gap_pct : Option Rat := none
  pos_num : Option Int := none
deriving DecidableEq

/-- HSP.__init__.  Its third and fourth positional parameters are `hit_seq`
and `query_seq`; the body never uses them (it only stores the ids, the
`alphabet` parameter and an empty annotation mapping), so they are ignored
here as well.  Keeping them in the signature is essential: the subclass
constructors pass their `alphabet` argument positionally into the `hit_seq`
slot. -/
def HSP.base_init (hit_id query_id : String) ( _hit_seq _query_seq : PySeq)
    (alphabet : String) : HSP :=
  { hit_id := hit_id, query_id := query_id, alphabet := alphabet }

/-- HSP._prep_seq: wrap a raw string into a SeqRecord carrying the HSP's
current `alphabet`, or retarget an existing SeqRecord's id / name /
description.  (The TypeError branch for other argument types is outside the
`PySeq` type and not modelled.) -/
def HSP.prep_seq (h : HSP) (seq : PySeq) (seq_id : String) (seq_type : String)
    (desc : String) : SeqRecord :=
  let seq_name := "aligned " ++ seq_type ++ " sequence"
  match seq with
  | PySeq.srec r => { r with id := seq_id, name := seq_name, description := desc }
  | PySeq.str s =>
      { seq := s, alphabet := h.alphabet, id := seq_id, name := seq_name,
        description := desc }

/-- HSP._ali_len_set (property setter): an explicit write always overrides. -/
def HSP.ali_len_set (h : HSP) (v : Int) : HSP := { h with _ali_len := some v }

/-- HSP._ident_num_set. -/
def HSP.ident_num_set (h : HSP) (v : Int) : HSP := { h with _ident_num := some v }

/-- HSP._mismatch_num_set. -/
def HSP.mismatch_num_set (h : HSP) (v : Int) : HSP := { h with _mismatch_num := some v }

/-- HSP._gap_num_set. -/
def HSP.gap_num_set (h : HSP) (v : Int) : HSP := { h with _gap_num := some v }

/-- HSP._ident_pct_set. -/
def HSP.ident_pct_set (h : HSP) (v : Rat) : HSP := { h with _ident_pct := some v }

/-- HSP._ali_len_get: return the cached / parsed value if present; otherwise
compute `_ident_num + _mismatch_num + _gap_num`, cache it and return it; a
missing input raises the insufficiency AttributeError. -/
def HSP.ali_len_get (h : HSP) : Except PyErr (Int × HSP) :=
  match h._ali_len with
  | some v => Except.ok (v, h)
  | none =>
    match h._ident_num, h._mismatch_num, h._gap_num with
    | some i, some m, some g =>
        let v := i + m + g
        Except.ok (v, { h with _ali_len := some v })
    | _, _, _ =>
        Except.error (PyErr.attributeError "Not enough is known to compute initial length")

/-- HSP._ident_num_get: cached value, or `_ali_len - _mismatch_num - _gap_num`. -/
def HSP.ident_num_get (h : HSP) : Except PyErr (Int × HSP) :=
  match h._ident_num with
  | some v => Except.ok (v, h)
  | none =>
    match h._ali_len, h._mismatch_num, h._gap_num with
    | some a, some m, some g =>
        let v := a - m - g
        Except.ok (v, { h with _ident_num := some v })
    | _, _, _ =>
        Except.error (PyErr.attributeError "Not enough is known to compute identities")

/-- HSP._mismatch_num_get: cached value, or `_ali_len - _ident_num - _gap_num`. -/
def HSP.mismatch_num_get (h : HSP) : Except PyErr (Int × HSP) :=
  match h._mismatch_num with
  | some v => Except.ok (v, h)
  | none =>
    match h._ali_len, h._ident_num, h._gap_num with
    | some a, some i, some g =>
        let v := a - i - g
        Except.ok (v, { h with _mismatch_num := some v })
    | _, _, _ =>
        Except.error (PyErr.attributeError "Not enough is known to compute mismatches")

/-- HSP._gap_num_get: cached value, or `_ali_len - _ident_num - _mismatch_num`. -/
def HSP.gap_num_get (h : HSP) : Except PyErr (Int × HSP) :=
  match h._gap_num with
  | some v => Except.ok (v, h)
  | none =>
    match h._ali_len, h._ident_num, h._mismatch_num with
    | some a, some i, some m =>
        let v := a - i - m
        Except.ok (v, { h with _gap_num := some v })
    | _, _, _ =>
        Except.error (PyErr.attributeError "Not enough is known to compute gaps")

/-- HSP._ident_pct_get: cached value, or `ident_num / float(ali_len) * 100`
via the (possibly computing and caching) `ident_num` / `ali_len` property
getters, evaluated left to right.  An AttributeError from either getter is
caught and re-raised as the percentage insufficiency error; a zero
`ali_len` raises ZeroDivisionError (uncaught in the source). -/
def HSP.ident_pct_get (h : HSP) : Except PyErr (Rat × HSP) :=
  match h._ident_pct with
  | some v => Except.ok (v, h)
  | none =>
    match h.ident_num_get with
    | Except.error (PyErr.attributeError _) =>
        Except.error (PyErr.attributeError "Not enough is known to compute identity percentage")
    | Except.error e => Except.error e
    | Except.ok (i, h1) =>
      match h1.ali_len_get with
      | Except.error (PyErr.attributeError _) =>
          Except.error (PyErr.attributeError "Not enough is known to compute identity percentage")
      | Except.error e => Except.error e
      | Except.ok (a, h2) =>
          if a = 0 then Except.error PyErr.zeroDivisionError
          else
            let v : Rat := (i : Rat) / (a : Rat) * 100
            Except.ok (v, { h2 with _ident_pct := some v })

/-- HSP._pos_pct_get: cached value, or `pos_num / float(ali_len) * 100`;
`pos_num` is a plain attribute (no computing getter exists for it). -/
def HSP.pos_pct_get (h : HSP) : Except PyErr (Rat × HSP) :=
  match h._pos_pct with
  | some v => Except.ok (v, h)
  | none =>
    match h.pos_num with
    | none =>
        Except.error (PyErr.attributeError "Not enough is known to compute positive percentage")
    | some p =>
      match h.ali_len_get with
      | Except.error (PyErr.attributeError _) =>
          Except.error (PyErr.attributeError "Not enough is known to compute positive percentage")
      | Except.error e => Except.error e
      | Except.ok (a, h1) =>
          if a = 0 then Except.error PyErr.zeroDivisionError
          else
            let v : Rat := (p : Rat) / (a : Rat) * 100
            Except.ok (v, { h1 with _pos_pct := some v })

/-- HSP._gap_pct_get: cached value, or `gap_num / float(ali_len) * 100` via
the computing property getters. -/
def HSP.gap_pct_get (h : HSP) : Except PyErr (Rat × HSP) :=
  match h._gap_pct with
  | some v => Except.ok (v, h)
  | none =>
    match h.gap_num_get with
    | Except.error (PyErr.attributeError _) =>
        Except.error (PyErr.attributeError "Not enough is known to compute gap percentage")
    | Except.error e => Except.error e
    | Except.ok (g, h1) =>
      match h1.ali_len_get with
      | Except.error (PyErr.attributeError _) =>
          Except.error (PyErr.attributeError "Not enough is known to compute gap percentage")
      | Except.error e => Except.error e
      | Except.ok (a, h2) =>
          if a = 0 then Except.error PyErr.zeroDivisionError
          else
            let v : Rat := (g : Rat) / (a : Rat) * 100
            Except.ok (v, { h2 with _gap_pct := some v })

/-- State of a Hit object: identifiers, description, the owned HSP list
(`self._hsps`) and the externally attached (sticky) attributes, modelled as
a name → value map of opaque string values. -/
structure Hit where
  _id : String
  _query_id : String
  _desc : String
  _hsps : List HSP
  extra : List (String × String)
deriving DecidableEq

/-- Hit.__nonzero__: a Hit is truthy iff it owns at least one HSP. -/
def Hit.truthy (h : Hit) : Bool := !h._hsps.isEmpty

/-- Hit._validate_hsp, checked against an (id, query_id) pair: the HSP's
`hit_id` must equal the Hit's id and its `query_id` the Hit's query_id.
(The TypeError branch for non-HSP values is outside the argument type.) -/
def validate_hsp (id query_id : String) (s : HSP) : Option PyErr :=
  if s.hit_id ≠ id then
    some (PyErr.valueError "Expected HSP with hit ID equal to the Hit id")
  else if s.query_id ≠ query_id then
    some (PyErr.valueError "Expected HSP with query ID equal to the Hit query_id")
  else none

/-- Hit.__init__: store the ids and an empty description, validating every
HSP in order; the first validation failure raises and no Hit is produced. -/
def Hit.init (id query_id : String) (hsps : List HSP) : Except PyErr Hit :=
  match hsps.findSome? (validate_hsp id query_id) with
  | some e => Except.error e
  | none =>
      Except.ok
        { _id := id
          _query_id := query_id
          _desc := ""
          _hsps := hsps
          extra := [] }

/-- BaseSearchObject._transfer_attrs for Hit: copy every attribute of `src`
onto `dst` except the non-sticky `_hsps`. -/
def Hit.transfer_attrs (src dst : Hit) : Hit :=
  { dst with
    _id := src._id
    _query_id := src._query_id
    _desc := src._desc
    extra := src.extra }

/-- Hit._id_set: rewrite the id and cascade it to every owned HSP's hit_id. -/
def Hit.id_set (h : Hit) (v : String) : Hit :=
  { h with _id := v, _hsps := h._hsps.map (fun s => { s with hit_id := v }) }

/-- Hit._query_id_set: rewrite the query id and cascade it to every owned
HSP's query_id (the emptiness guard in the source is a no-op). -/
def Hit.query_id_set (h : Hit) (v : String) : Hit :=
  { h with _query_id := v, _hsps := h._hsps.map (fun s => { s with query_id := v }) }

/-- Hit.filter: build the filtered HSP list; if it is empty the method falls
off the end and returns None (`Except.ok none` here), otherwise a new Hit is
constructed from it (validation may raise) and sticky attributes are
transferred onto it. -/
def Hit.filter (h : Hit) (func : HSP → Bool) : Except PyErr (Option Hit) :=
  let hsps := h._hsps.filter func
  if hsps.isEmpty then Except.ok none
  else
    match Hit.init h._id h._query_id hsps with
    | Except.ok obj => Except.ok (some (Hit.transfer_attrs h obj))
    | Except.error e => Except.error e

/-- Hit.map: map over a copy of the HSP list; an empty result (only possible
when the Hit owned no HSPs) returns None, otherwise a new Hit is built. -/
def Hit.map (h : Hit) (func : HSP → HSP) : Except PyErr (Option Hit) :=
  let hsps := h._hsps.map func
  if hsps.isEmpty then Except.ok none
  else
    match Hit.init h._id h._query_id hsps with
    | Except.ok obj => Except.ok (some (Hit.transfer_attrs h obj))
    | Except.error e => Except.error e

/-- A Python value handed to QueryResult item assignment: the dynamic checks
in __setitem__ distinguish string keys and Hit values from everything
else. -/
inductive PyObj where
  | str (s : String)
  | int (n : Int)
  | hit (h : Hit)

/-- State of a QueryResult object: the query id, the pluggable hit-key
function, the backing insertion-ordered mapping (`self._hits`, an
OrderedDict modelled as an association list), the default free attributes
assigned by __init__, and the externally attached (sticky) attributes. -/
structure QueryResult where
  _id : String
  _hit_key_function : Hit → String
  _hits : List (String × Hit)
  program : String
  target : String
  version : String
  _desc : String
  extra : List (String × String)

/-- OrderedDict item assignment: an existing key keeps its position and gets
the new value; a new key is appended at the end. -/
def odSet (l : List (String × Hit)) (k : String) (v : Hit) : List (String × Hit) :=
  if l.any (fun p => p.1 == k) then
    l.map (fun p => if p.1 == k then (k, v) else p)
  else l ++ [(k, v)]

/-- The fresh state produced by the first half of QueryResult.__init__
(before the hits are appended): empty mapping, default program / target /
version / description, no sticky attributes.  (The ValueError on a missing
id is outside the model: ids are required strings here.) -/
def QueryResult.initState (id : String) (kf : Hit → String) : QueryResult :=
  { _id := id
    _hit_key_function := kf
    _hits := []
    program := "<unknown>"
    target := "<unknown>"
    version := "<unknown>"
    _desc := ""
    extra := [] }

/-- QueryResult.__contains__ for a raw string key. -/
def QueryResult.contains_key (q : QueryResult) (k : String) : Bool :=
  q._hits.any (fun p => p.1 == k)

/-- QueryResult.__setitem__: the key must be a string, the value a Hit, and
the Hit's query_id must equal this object's id; each failing check raises
before the backing mapping is touched (the returned state is `q` itself on
every error path). -/
def QueryResult.setitem (q : QueryResult) (key value : PyObj) :
    Option PyErr × QueryResult :=
  match key with
  | PyObj.str k =>
    match value with
    | PyObj.hit h =>
        if h._query_id ≠ q._id then
          (some (PyErr.valueError "Expected Hit with query ID equal to this id"), q)
        else (none, { q with _hits := odSet q._hits k h })
    | _ => (some (PyErr.typeError "QueryResult objects can only contain Hit objects."), q)
  | _ => (some (PyErr.typeError "QueryResult object keys must be a string."), q)

/-- QueryResult.append: compute the key with the hit key function (always
set; the default extracts the Hit id), raise if it is already present,
otherwise insert through __setitem__. -/
def QueryResult.append (q : QueryResult) (h : Hit) : Option PyErr × QueryResult :=
  let hit_key := q._hit_key_function h
  if q.contains_key hit_key then
    (some (PyErr.valueError "Hit already present in this QueryResult."), q)
  else q.setitem (PyObj.str hit_key) (PyObj.hit h)

/-- The hit-appending loop of QueryResult.__init__: append each hit in
order, stopping at the first failure (whose exception propagates). -/
def QueryResult.appendAll (q : QueryResult) (hits : List Hit) :
    Option PyErr × QueryResult :=
  match hits with
  | [] => (none, q)
  | h :: rest =>
    match q.append h with
    | (none, q') => q'.appendAll rest
    | (some e, q') => (some e, q')

/-- QueryResult.__init__: build the fresh state and append every hit;
validation failure raises and no QueryResult is produced. -/
def QueryResult.init (id : String) (hits : List Hit) (kf : Hit → String) :
    Except PyErr QueryResult :=
  match (QueryResult.initState id kf).appendAll hits with
  | (none, q) => Except.ok q
  | (some e, _) => Except.error e

/-- `list(self.hits)`: the Hit objects in insertion order. -/
def QueryResult.hitsList (q : QueryResult) : List Hit := q._hits.map Prod.snd

/-- BaseSearchObject._transfer_attrs for QueryResult: copy every attribute
of `src` onto `dst` except the non-sticky `_hits`. -/
def QueryResult.transfer_attrs (src dst : QueryResult) : QueryResult :=
  { dst with
    _id := src._id
    _hit_key_function := src._hit_key_function
    program := src.program
    target := src.target
    version := src.version
    _desc := src._desc
    extra := src.extra }

/-- QueryResult._id_set: rewrite the id and cascade it to every contained
Hit's query_id (keys are not recomputed). -/
def QueryResult.id_set (q : QueryResult) (v : String) : QueryResult :=
  { q with _id := v, _hits := q._hits.map (fun p => (p.1, p.2.query_id_set v)) }

/-- QueryResult.__getitem__ with a slice `[a:b]` (non-negative bounds, unit
step): slice `list(self.hits)`, construct a new QueryResult from the slice
with the same id and key function, and transfer sticky attributes onto it. -/
def QueryResult.getslice (q : QueryResult) (a b : Nat) : Except PyErr QueryResult :=
  match QueryResult.init q._id ((q.hitsList.take b).drop a) q._hit_key_function with
  | Except.ok obj => Except.ok (QueryResult.transfer_attrs q obj)
  | Except.error e => Except.error e

/-- QueryResult.sort restricted to `key=None` (the claim's scope).  The
first component of a successful result is the Python return value (None for
in-place sorting, the new QueryResult otherwise); the second is the state
of `self` after the call (rebuilt backing mapping for in-place sorting,
unchanged otherwise). -/
def QueryResult.sort_nokey (q : QueryResult) (reverse in_place : Bool) :
    Except PyErr (Option QueryResult × QueryResult) :=
  let sorted_hits := if reverse then q.hitsList.reverse else q.hitsList
  if in_place then
    Except.ok (none,
      { q with _hits :=
          sorted_hits.foldl (fun acc h => odSet acc (q._hit_key_function h) h) [] })
  else
    match QueryResult.init q._id sorted_hits q._hit_key_function with
    | Except.ok obj => Except.ok (some (QueryResult.transfer_attrs q obj), q)
    | Except.error e => Except.error e

/-- The generator `(hit.filter(func) for hit in self.hits)` as consumed by
`filter(None, ...)` in QueryResult.hsp_filter: collect each Hit.filter
result in order, propagating the first exception. -/
def collectFilters (func : HSP → Bool) : List Hit → Except PyErr (List (Option Hit))
  | [] => Except.ok []
  | h :: rest =>
    match Hit.filter h func with
    | Except.error e => Except.error e
    | Except.ok o =>
      match collectFilters func rest with
      | Except.error e => Except.error e
      | Except.ok os => Except.ok (o :: os)

/-- QueryResult.hsp_filter: apply Hit.filter to every hit, keep only truthy
results (`filter(None, ...)` drops both None and empty Hits), and rebuild a
new QueryResult with sticky attributes transferred. -/
def QueryResult.hsp_filter (q : QueryResult) (func : HSP → Bool) :
    Except PyErr QueryResult :=
  match collectFilters func q.hitsList with
  | Except.error e => Except.error e
  | Except.ok opts =>
    match QueryResult.init q._id ((opts.filterMap id).filter Hit.truthy)
        q._hit_key_function with
    | Except.ok obj => Except.ok (QueryResult.transfer_attrs q obj)
    | Except.error e => Except.error e

/-- The generator `(hit.map(func) for hit in self.hits[:])` as consumed by
`filter(None, ...)` in QueryResult.hsp_map: collect each Hit.map result in
order, propagating the first exception. -/
def collectMaps (func : HSP → HSP) : List Hit → Except PyErr (List (Option Hit))
  | [] => Except.ok []
  | h :: rest =>
    match Hit.map h func with
    | Except.error e => Except.error e
    | Except.ok o =>
      match collectMaps func rest with
      | Except.error e => Except.error e
      | Except.ok os => Except.ok (o :: os)

/-- QueryResult.hsp_map: apply Hit.map to every hit (over a copy of the hit
list), keep only truthy results (`filter(None, ...)` drops both None and
empty Hits), and rebuild a new QueryResult with sticky attributes
transferred. -/
def QueryResult.hsp_map (q : QueryResult) (func : HSP → HSP) :
    Except PyErr QueryResult :=
  match collectMaps func q.hitsList with
  | Except.error e => Except.error e
  | Except.ok opts =>
    match QueryResult.init q._id ((opts.filterMap id).filter Hit.truthy)
        q._hit_key_function with
    | Except.ok obj => Except.ok (QueryResult.transfer_attrs q obj)
    | Except.error e => Except.error e

/-- Model of Bio.Align.MultipleSeqAlignment as built by the HSP variants:
the list of aligned SeqRecords and the alphabet it was constructed with. -/
structure MSA where
  records : List SeqRecord
  alphabet : String
deriving DecidableEq

/-- State of a ContiguousHSP: the HSP base state plus the optional
`self._query` / `self._hit` SeqRecords and the cached pairwise alignment. -/
structure ContiguousHSP extends HSP where
  _query : Option SeqRecord := none
  _hit : Option SeqRecord := none
  _alignment : Option MSA := none
deriving DecidableEq

/-- ContiguousHSP._query_set: wrap through _prep_seq (which uses the HSP's
current `alphabet`). -/
def ContiguousHSP.query_set (c : ContiguousHSP) (value : PySeq) : ContiguousHSP :=
  { c with _query := some (c.toHSP.prep_seq value c.query_id "query" "") }

/-- ContiguousHSP._hit_set: wrap through _prep_seq. -/
def ContiguousHSP.hit_set (c : ContiguousHSP) (value : PySeq) : ContiguousHSP :=
  { c with _hit := some (c.toHSP.prep_seq value c.hit_id "hit" "") }

/-- ContiguousHSP.__init__.  The source calls
`HSP.__init__(self, hit_id, query_id, alphabet)`: the `alphabet` argument is
passed positionally into HSP.__init__'s third parameter, which is
`hit_seq`, so the base constructor receives its default alphabet
(single_letter_alphabet) as the stored alphabet.  Afterwards truthy
query_seq / hit_seq arguments are assigned through the property setters. -/
def ContiguousHSP.init (hit_id query_id : String) ( hit_seq query_seq : PySeq)
    (alphabet : String) : ContiguousHSP :=
  let base := HSP.base_init hit_id query_id (PySeq.str alphabet) (PySeq.str "")
      single_letter_alphabet
  let c : ContiguousHSP := { toHSP := base }
  let c := if query_seq.truthy then c.query_set query_seq else c
  if hit_seq.truthy then c.hit_set hit_seq else c

/-- State of a SegmentedHSP: the HSP base state plus the optional parallel
`self._query` / `self._hit` SeqRecord lists and the cached per-block
alignment list. -/
structure SegmentedHSP extends HSP where
  _query : Option (List SeqRecord) := none
  _hit : Option (List SeqRecord) := none
  _alignment : Option (List MSA) := none
deriving DecidableEq

/-- SegmentedHSP._query_set: wrap every entry through _prep_seq. -/
def SegmentedHSP.query_set (s : SegmentedHSP) (value : List PySeq) : SegmentedHSP :=
  { s with _query := some (value.map (fun sq => s.toHSP.prep_seq sq s.query_id "query" "")) }

/-- SegmentedHSP._hit_set: wrap every entry through _prep_seq. -/
def SegmentedHSP.hit_set (s : SegmentedHSP) (value : List PySeq) : SegmentedHSP :=
  { s with _hit := some (value.map (fun sq => s.toHSP.prep_seq sq s.hit_id "hit" "")) }

/-- SegmentedHSP.__init__: same positional-argument handoff to HSP.__init__
as for ContiguousHSP (the `alphabet` argument lands in the unused `hit_seq`
slot, so the stored alphabet is the default); then, if the block list is
truthy, its first components become the query sequences and its second
components the hit sequences. -/
def SegmentedHSP.init (hit_id query_id : String) (blocks : List (PySeq × PySeq))
    (alphabet : String) : SegmentedHSP :=
  let base := HSP.base_init hit_id query_id (PySeq.str alphabet) (PySeq.str "")
      single_letter_alphabet
  let s : SegmentedHSP := { toHSP := base }
  if blocks.isEmpty then s
  else (s.query_set (blocks.map Prod.fst)).hit_set (blocks.map Prod.snd)

/-- SegmentedHSP._alignment_get: return the cached list if present;
otherwise pair the query and hit sequences with izip (which stops at the
shorter list), build one MultipleSeqAlignment per pair, cache and return.
`self.query` is read before `self.hit`; either being unset raises an
AttributeError that propagates (there is no except clause here). -/
def SegmentedHSP.alignment_get (s : SegmentedHSP) :
    Except PyErr (List MSA × SegmentedHSP) :=
  match s._alignment with
  | some a => Except.ok (a, s)
  | none =>
    match s._query with
    | none => Except.error (PyErr.attributeError "SegmentedHSP object has no attribute query")
    | some qs =>
      match s._hit with
      | none => Except.error (PyErr.attributeError "SegmentedHSP object has no attribute hit")
      | some hs =>
        let a := (qs.zip hs).map (fun p => MSA.mk [p.1, p.2] s.alphabet)
        Except.ok (a, { s with _alignment := some a })

/-- The value returned by a Python __len__ implementation, before the len()
builtin checks that it is an integer. -/
inductive LenResult where
  | int (n : Nat)
  | pylist (l : List MSA)
deriving DecidableEq

/-- SegmentedHSP.__len__: `return len(self.alignment)`, but the fallback
except-AttributeError branch returns the empty *list* `[]`, not a number. -/
def SegmentedHSP.len_dunder (s : SegmentedHSP) :
    Except PyErr (LenResult × SegmentedHSP) :=
  match s.alignment_get with
  | Except.ok (a, s1) => Except.ok (LenResult.int a.length, s1)
  | Except.error (PyErr.attributeError _) => Except.ok (LenResult.pylist [], s)
  | Except.error e => Except.error e

/-- The len() builtin applied to a SegmentedHSP: calls __len__ and raises
TypeError when the returned value is not an integer. -/
def SegmentedHSP.pyLen (s : SegmentedHSP) : Except PyErr (Nat × SegmentedHSP) :=
  match s.len_dunder with
  | Except.ok (LenResult.int n, s1) => Except.ok (n, s1)
  | Except.ok (LenResult.pylist _, _) =>
      Except.error (PyErr.typeError "an integer is required")
  | Except.error e => Except.error e

/-- Inserting a key that is not yet present appends the pair at the end. -/
theorem odSet_fresh (l : List (String × Hit)) (k : String) (v : Hit)
    (hf : ∀ p ∈ l, p.1 ≠ k) : odSet l k v = l ++ [(k, v)] := by
  have hany : l.any (fun p => p.1 == k) = false := by
    rw [List.any_eq_false]
    intro p hp
    simpa using hf p hp
  simp [odSet, hany]

/-- Appending a Hit with a matching query id and a fresh key succeeds and
appends the (key, hit) pair to the backing mapping. -/
theorem append_fresh (q : QueryResult) (h : Hit)
    (hq : h._query_id = q._id)
    (hf : ∀ p ∈ q._hits, p.1 ≠ q._hit_key_function h) :
    q.append h = (none, { q with _hits := q._hits ++ [(q._hit_key_function h, h)] }) := by
  have hc : q.contains_key (q._hit_key_function h) = false := by
    rw [QueryResult.contains_key, List.any_eq_false]
    intro p hp
    simpa using hf p hp
  simp [QueryResult.append, hc, QueryResult.setitem, hq, odSet_fresh _ _ _ hf]

/-- The init loop over a list of valid hits with pairwise-distinct fresh
keys succeeds and extends the backing mapping in order. -/
theorem appendAll_ok (hits : List Hit) : ∀ (q : QueryResult),
    (∀ h ∈ hits, h._query_id = q._id) →
    ((hits.map q._hit_key_function).Nodup) →
    (∀ h ∈ hits, ∀ p ∈ q._hits, p.1 ≠ q._hit_key_function h) →
    q.appendAll hits =
      (none, { q with _hits := q._hits ++ hits.map (fun h => (q._hit_key_function h, h)) }) := by
  induction hits with
  | nil =>
    intro q _ _ _
    simp [QueryResult.appendAll]
  | cons h rest ih =>
    intro q h1 h2 h3
    have hstep := append_fresh q h (h1 h (by simp)) (fun p hp => h3 h (by simp) p hp)
    have hnd := h2
    simp only [List.map_cons, List.nodup_cons] at hnd
    have hfresh : ∀ h' ∈ rest, ∀ p ∈
        ({ q with _hits := q._hits ++ [(q._hit_key_function h, h)] } : QueryResult)._hits,
        p.1 ≠ q._hit_key_function h' := by
      intro h' hh' p hp
      rcases List.mem_append.mp hp with hold | hnew
      · exact h3 h' (by simp [hh']) p hold
      · have hpe : p = (q._hit_key_function h, h) := by simpa using hnew
        subst hpe
        intro hcontra
        have hc2 : q._hit_key_function h = q._hit_key_function h' := hcontra
        exact hnd.1 (by
          rw [hc2]
          exact List.mem_map_of_mem _ hh')
    have hrec := ih { q with _hits := q._hits ++ [(q._hit_key_function h, h)] }
      (fun h' hh' => h1 h' (by simp [hh'])) hnd.2 hfresh
    rw [QueryResult.appendAll, hstep]
    show QueryResult.appendAll _ rest = _
    rw [hrec]
    simp

/-- Rebuilding (key, hit) pairs from the values of a well-keyed association
list gives back the list itself. -/
theorem pairs_id (kf : Hit → String) (l : List (String × Hit))
    (hl : ∀ p ∈ l, p.1 = kf p.2) :
    (l.map Prod.snd).map (fun h => (kf h, h)) = l := by
  induction l with
  | nil => rfl
  | cons p rest ih =>
    simp only [List.map_cons]
    rw [ih (fun p' hp' => hl p' (by simp [hp']))]
    have hp := hl p (by simp)
    cases p with
    | mk k h =>
      simp only at hp
      rw [hp]

/-- QueryResult.__init__ succeeds on valid hits with pairwise distinct keys
and produces the fresh state with the keyed hits as backing mapping. -/
theorem init_ok (id : String) (kf : Hit → String) (hits : List Hit)
    (h1 : ∀ h ∈ hits, h._query_id = id)
    (h2 : (hits.map kf).Nodup) :
    QueryResult.init id hits kf =
      Except.ok { QueryResult.initState id kf with
        _hits := hits.map (fun h => (kf h, h)) } := by
  rw [QueryResult.init]
  rw [appendAll_ok hits (QueryResult.initState id kf) h1 h2 (by
    intro h hh p hp
    simp [QueryResult.initState] at hp)]
  simp [QueryResult.initState]

/-- Folding OrderedDict assignment over hits with pairwise distinct keys,
all fresh for the accumulator, appends the keyed pairs in order. -/
theorem odBuild (kf : Hit → String) (hits : List Hit) : ∀ (acc : List (String × Hit)),
    ((hits.map kf).Nodup) →
    (∀ h ∈ hits, ∀ p ∈ acc, p.1 ≠ kf h) →
    hits.foldl (fun a h => odSet a (kf h) h) acc =
      acc ++ hits.map (fun h => (kf h, h)) := by
  induction hits with
  | nil =>
    intro acc _ _
    simp
  | cons h rest ih =>
    intro acc hnd hfresh
    have hnd' := hnd
    simp only [List.map_cons, List.nodup_cons] at hnd'
    simp only [List.foldl_cons]
    rw [odSet_fresh acc (kf h) h (fun p hp => hfresh h (by simp) p hp)]
    rw [ih (acc ++ [(kf h, h)]) hnd'.2 ?fresh]
    · simp
    case fresh =>
      intro h' hh' p hp
      rcases List.mem_append.mp hp with hold | hnew
      · exact hfresh h' (by simp [hh']) p hold
      · have hpe : p = (kf h, h) := by simpa using hnew
        subst hpe
        intro hcontra
        have hc2 : kf h = kf h' := hcontra
        exact hnd'.1 (by
          rw [hc2]
          exact List.mem_map_of_mem _ hh')

/-- Hit.filter on a Hit whose HSPs are valid for its ids: returns None when
the filtered list is empty, otherwise the rebuilt Hit (same sticky
attributes, filtered HSP list). -/
theorem hit_filter_ok (h : Hit) (func : HSP → Bool)
    (hv : ∀ s ∈ h._hsps, s.hit_id = h._id ∧ s.query_id = h._query_id) :
    h.filter func = Except.ok (if (h._hsps.filter func).isEmpty then none
      else some { h with _hsps := h._hsps.filter func }) := by
  by_cases he : (h._hsps.filter func).isEmpty
  · simp [Hit.filter, he]
  · have hfind : (h._hsps.filter func).findSome? (validate_hsp h._id h._query_id) = none := by
      rw [List.findSome?_eq_none_iff]
      intro s hs
      have hmem := List.mem_of_mem_filter hs
      have hids := hv s hmem
      simp [validate_hsp, hids.1, hids.2]
    simp [Hit.filter, he, Hit.init, hfind, Hit.transfer_attrs]

/-- The collected generator of Hit.filter results over a list of valid
hits. -/
theorem collectFilters_ok (func : HSP → Bool) (l : List Hit)
    (hv : ∀ h ∈ l, ∀ s ∈ h._hsps, s.hit_id = h._id ∧ s.query_id = h._query_id) :
    collectFilters func l = Except.ok (l.map (fun h =>
      if (h._hsps.filter func).isEmpty then none
      else some { h with _hsps := h._hsps.filter func })) := by
  induction l with
  | nil => rfl
  | cons h rest ih =>
    rw [collectFilters]
    rw [hit_filter_ok h func (hv h (by simp))]
    rw [ih (fun h' hh' => hv h' (by simp [hh']))]
    simp

/-- Hit.map on a Hit whose mapped HSPs are valid for its ids: returns None
when the mapped list is empty (the Hit owned no HSPs), otherwise the
rebuilt Hit (same sticky attributes, mapped HSP list). -/
theorem hit_map_ok (h : Hit) (func : HSP → HSP)
    (hv : ∀ s ∈ h._hsps, (func s).hit_id = h._id ∧ (func s).query_id = h._query_id) :
    h.map func = Except.ok (if (h._hsps.map func).isEmpty then none
      else some { h with _hsps := h._hsps.map func }) := by
  by_cases he : (h._hsps.map func).isEmpty
  · simp [Hit.map, he]
  · have hfind : (h._hsps.map func).findSome? (validate_hsp h._id h._query_id) = none := by
      rw [List.findSome?_eq_none_iff]
      intro s hs
      obtain ⟨s0, hs0, hse⟩ := List.mem_map.mp hs
      subst hse
      have hids := hv s0 hs0
      simp [validate_hsp, hids.1, hids.2]
    simp [Hit.map, he, Hit.init, hfind, Hit.transfer_attrs]

/-- The collected generator of Hit.map results over a list of hits whose
mapped HSPs keep their owner ids. -/
theorem collectMaps_ok (func : HSP → HSP) (l : List Hit)
    (hv : ∀ h ∈ l, ∀ s ∈ h._hsps,
      (func s).hit_id = h._id ∧ (func s).query_id = h._query_id) :
    collectMaps func l = Except.ok (l.map (fun h =>
      if (h._hsps.map func).isEmpty then none
      else some { h with _hsps := h._hsps.map func })) := by
  induction l with
  | nil => rfl
  | cons h rest ih =>
    rw [collectMaps]
    rw [hit_map_ok h func (hv h (by simp))]
    rw [ih (fun h' hh' => hv h' (by simp [hh']))]
    simp

/-- Dropping the `none` entries of an if-map produces the filtered map. -/
theorem filterMap_if_map (r : Hit → Hit) (c : Hit → Bool) (l : List Hit) :
    ((l.map (fun h => if c h then none else some (r h))).filterMap id) =
      (l.filter (fun h => !c h)).map r := by
  induction l with
  | nil => rfl
  | cons h rest ih =>
    by_cases hc : c h <;> simp [hc, ih, List.filter_cons]

/-- A freshly constructed bare HSP (no metric field ever assigned). -/
def exHSPfresh : HSP :=
  HSP.base_init "hit1" "q1" (PySeq.str "") (PySeq.str "") single_letter_alphabet

/-- The C1 scenario state: a fresh HSP whose `ident_num`, `mismatch_num` and
`gap_num` were explicitly set to 90, 5 and 5. -/
def exC1HSP : HSP :=
  ((exHSPfresh.ident_num_set 90).mismatch_num_set 5).gap_num_set 5

/-- Claim C1: on an HSP whose `ident_num` = 90, `mismatch_num` = 5 and
`gap_num` = 5 are parsed (explicitly set) and whose `ali_len` and
`ident_pct` have never been set, reading `ali_len` computes and caches
90 + 5 + 5 = 100; subsequently reading `ident_pct` computes and caches
90 / 100 * 100 = 90; explicitly setting `ali_len` to 120 afterwards
overrides the cached 100, and a later read returns 120 from the stored
slot, never a recomputed value. -/
theorem metric_algebra_golden_rule_C1 (h : HSP)
    (e1 : h._ident_num = some 90) (e2 : h._mismatch_num = some 5)
    (e3 : h._gap_num = some 5) (e4 : h._ali_len = none)
    (e5 : h._ident_pct = none) :
    h.ali_len_get = Except.ok (100, { h with _ali_len := some 100 }) ∧
    HSP.ident_pct_get { h with _ali_len := some 100 } =
      Except.ok ((90 : Rat),
        { h with _ali_len := some 100, _ident_pct := some (90 : Rat) }) ∧
    (HSP.ali_len_set { h with _ali_len := some 100, _ident_pct := some (90 : Rat) } 120) =
      { h with _ali_len := some 120, _ident_pct := some (90 : Rat) } ∧
    HSP.ali_len_get { h with _ali_len := some 120, _ident_pct := some (90 : Rat) } =
      Except.ok (120, { h with _ali_len := some 120, _ident_pct := some (90 : Rat) }) := by
  refine ⟨?_, ?_, ?_, ?_⟩
  · rw [HSP.ali_len_get]
    rw [e4, e1, e2, e3]
    rfl
  · simp only [HSP.ident_pct_get, HSP.ident_num_get, HSP.ali_len_get, e5, e1]
    norm_num
  · rfl
  · rw [HSP.ali_len_get]

/-- Claim C1 witness: the scenario evaluated on a concrete fresh HSP with
the three counts parsed. -/
theorem metric_algebra_golden_rule_C1_witness :
    exC1HSP.ali_len_get = Except.ok (100, { exC1HSP with _ali_len := some 100 }) ∧
    HSP.ident_pct_get { exC1HSP with _ali_len := some 100 } =
      Except.ok ((90 : Rat),
        { exC1HSP with _ali_len := some 100, _ident_pct := some (90 : Rat) }) ∧
    (HSP.ali_len_set { exC1HSP with _ali_len := some 100, _ident_pct := some (90 : Rat) } 120) =
      { exC1HSP with _ali_len := some 120, _ident_pct := some (90 : Rat) } ∧
    HSP.ali_len_get { exC1HSP with _ali_len := some 120, _ident_pct := some (90 : Rat) } =
      Except.ok (120, { exC1HSP with _ali_len := some 120, _ident_pct := some (90 : Rat) }) :=
  metric_algebra_golden_rule_C1 exC1HSP rfl rfl rfl rfl rfl

/-- Claim C2: on an HSP none of whose metric-algebra slots (`ali_len`,
`ident_num`, `mismatch_num`, `gap_num`, nor the percentage slots, which the
scenario's "nothing has been set" state leaves unset as well) has ever been
assigned, reading any of the four count/length fields or any of the three
percentage fields raises the attribute-style "not enough is known"
insufficiency error instead of returning a default such as 0.  (`pos_num`
is left unconstrained: `pos_pct` fails either way because `ali_len` cannot
be derived.) -/
theorem metric_algebra_insufficiency_C2 (h : HSP)
    (e1 : h._ali_len = none) (e2 : h._ident_num = none)
    (e3 : h._mismatch_num = none) (e4 : h._gap_num = none)
    (e5 : h._ident_pct = none) (e6 : h._pos_pct = none)
    (e7 : h._gap_pct = none) :
    (∃ m, h.ali_len_get = Except.error (PyErr.attributeError m)) ∧
    (∃ m, h.ident_num_get = Except.error (PyErr.attributeError m)) ∧
    (∃ m, h.mismatch_num_get = Except.error (PyErr.attributeError m)) ∧
    (∃ m, h.gap_num_get = Except.error (PyErr.attributeError m)) ∧
    (∃ m, h.ident_pct_get = Except.error (PyErr.attributeError m)) ∧
    (∃ m, h.pos_pct_get = Except.error (PyErr.attributeError m)) ∧
    (∃ m, h.gap_pct_get = Except.error (PyErr.attributeError m)) := by
  refine ⟨?_, ?_, ?_, ?_, ?_, ?_, ?_⟩
  · exact ⟨"Not enough is known to compute initial length",
      by simp [HSP.ali_len_get, e1, e2]⟩
  · exact ⟨"Not enough is known to compute identities",
      by simp [HSP.ident_num_get, e1, e2]⟩
  · exact ⟨"Not enough is known to compute mismatches",
      by simp [HSP.mismatch_num_get, e2, e3]⟩
  · exact ⟨"Not enough is known to compute gaps",
      by simp [HSP.gap_num_get, e2, e4]⟩
  · exact ⟨"Not enough is known to compute identity percentage",
      by simp [HSP.ident_pct_get, HSP.ident_num_get, e1, e2, e5]⟩
  · refine ⟨"Not enough is known to compute positive percentage", ?_⟩
    cases hp : h.pos_num with
    | none => simp [HSP.pos_pct_get, e6, hp]
    | some p => simp [HSP.pos_pct_get, HSP.ali_len_get, e1, e2, e6, hp]
  · exact ⟨"Not enough is known to compute gap percentage",
      by simp [HSP.gap_pct_get, HSP.gap_num_get, e2, e4, e7]⟩

/-- Claim C2 witness: the seven insufficiency failures on a concrete bare
HSP. -/
theorem metric_algebra_insufficiency_C2_witness :
    (∃ m, exHSPfresh.ali_len_get = Except.error (PyErr.attributeError m)) ∧
    (∃ m, exHSPfresh.ident_num_get = Except.error (PyErr.attributeError m)) ∧
    (∃ m, exHSPfresh.mismatch_num_get = Except.error (PyErr.attributeError m)) ∧
    (∃ m, exHSPfresh.gap_num_get = Except.error (PyErr.attributeError m)) ∧
    (∃ m, exHSPfresh.ident_pct_get = Except.error (PyErr.attributeError m)) ∧
    (∃ m, exHSPfresh.pos_pct_get = Except.error (PyErr.attributeError m)) ∧
    (∃ m, exHSPfresh.gap_pct_get = Except.error (PyErr.attributeError m)) :=
  metric_algebra_insufficiency_C2 exHSPfresh rfl rfl rfl rfl rfl rfl rfl

/-- Claim C6: evaluated at a concrete failing input.  The claim says an
explicit alphabet tag supplied to the ContiguousHSP / SegmentedHSP
constructors is stored on the HSP and carried by the sequence records it
builds.  The code instead passes the tag positionally into HSP.__init__'s
unused `hit_seq` parameter, so the stored alphabet is always the default
single_letter_alphabet, and the sequence records built for the hit and
query sequences also carry the default, not the supplied tag. -/
theorem alphabet_dropped_at_construction_C6 :
    (ContiguousHSP.init "hit1" "query1" (PySeq.str "ATG") (PySeq.str "ATG")
        "generic-dna").alphabet = single_letter_alphabet ∧
    single_letter_alphabet ≠ "generic-dna" ∧
    Option.map SeqRecord.alphabet
        (ContiguousHSP.init "hit1" "query1" (PySeq.str "ATG") (PySeq.str "ATG")
          "generic-dna")._query = some single_letter_alphabet ∧
    Option.map SeqRecord.alphabet
        (ContiguousHSP.init "hit1" "query1" (PySeq.str "ATG") (PySeq.str "ATG")
          "generic-dna")._hit = some single_letter_alphabet ∧
    (SegmentedHSP.init "hit1" "query1" [(PySeq.str "AT", PySeq.str "AT")]
        "generic-dna").alphabet = single_letter_alphabet ∧
    Option.map (fun l => l.map SeqRecord.alphabet)
        (SegmentedHSP.init "hit1" "query1" [(PySeq.str "AT", PySeq.str "AT")]
          "generic-dna")._query = some [single_letter_alphabet] := by
  refine ⟨rfl, by decide, rfl, rfl, rfl, rfl⟩

/-- Claim C9: a SegmentedHSP whose query and hit sequence lists have
different lengths derives its per-block alignment without error; the result
pairs blocks with izip, so its length is the length of the shorter list,
and it is cached. -/
theorem segmented_alignment_truncation_C9 (s : SegmentedHSP)
    (qs hs : List SeqRecord)
    (e1 : s._query = some qs) (e2 : s._hit = some hs)
    (e3 : s._alignment = none) (e4 : qs.length ≠ hs.length) :
    s.alignment_get = Except.ok
      ((qs.zip hs).map (fun p => MSA.mk [p.1, p.2] s.alphabet),
        { s with
          _alignment := some ((qs.zip hs).map
            (fun p => MSA.mk [p.1, p.2] s.alphabet)) }) ∧
    ((qs.zip hs).map (fun p => MSA.mk [p.1, p.2] s.alphabet)).length =
      min qs.length hs.length := by
  constructor
  · rw [SegmentedHSP.alignment_get]
    rw [e3, e1, e2]
  · simp [List.length_zip]

/-- The C9 witness SegmentedHSP: built with no blocks, then given two query
sequences and three hit sequences through the property setters. -/
def exSegHSP : SegmentedHSP :=
  ((SegmentedHSP.init "h" "q" [] "dna").query_set
      [PySeq.str "AB", PySeq.str "CD"]).hit_set
    [PySeq.str "AB", PySeq.str "CD", PySeq.str "EF"]

/-- The query sequence records of the C9 witness (the alphabet on them is
the default because of the constructor handoff described at C6). -/
def exSegQuery : List SeqRecord :=
  [{ seq := "AB", alphabet := single_letter_alphabet, id := "q",
     name := "aligned query sequence", description := "" },
   { seq := "CD", alphabet := single_letter_alphabet, id := "q",
     name := "aligned query sequence", description := "" }]

/-- The hit sequence records of the C9 witness. -/
def exSegHit : List SeqRecord :=
  [{ seq := "AB", alphabet := single_letter_alphabet, id := "h",
     name := "aligned hit sequence", description := "" },
   { seq := "CD", alphabet := single_letter_alphabet, id := "h",
     name := "aligned hit sequence", description := "" },
   { seq := "EF", alphabet := single_letter_alphabet, id := "h",
     name := "aligned hit sequence", description := "" }]

/-- Claim C9 witness: two query blocks against three hit blocks derive a
two-block alignment without error. -/
theorem segmented_alignment_truncation_C9_witness :
    exSegHSP.alignment_get = Except.ok
      ((exSegQuery.zip exSegHit).map (fun p => MSA.mk [p.1, p.2] exSegHSP.alphabet),
        { exSegHSP with
          _alignment := some ((exSegQuery.zip exSegHit).map
            (fun p => MSA.mk [p.1, p.2] exSegHSP.alphabet)) }) ∧
    ((exSegQuery.zip exSegHit).map
        (fun p => MSA.mk [p.1, p.2] exSegHSP.alphabet)).length =
      min exSegQuery.length exSegHit.length :=
  segmented_alignment_truncation_C9 exSegHSP exSegQuery exSegHit rfl rfl rfl (by decide)

/-- Claim C10: a SegmentedHSP constructed with no blocks has neither its
query nor its hit sequence list set, so __len__ falls into its
except-AttributeError branch, which evaluates to the empty list rather than
any integer (in particular not 0); the len() builtin therefore raises a
TypeError instead of reporting zero blocks. -/
theorem segmented_len_fallback_C10 (hit_id query_id alphabet : String) :
    (SegmentedHSP.init hit_id query_id [] alphabet).len_dunder =
      Except.ok (LenResult.pylist [], SegmentedHSP.init hit_id query_id [] alphabet) ∧
    (¬ ∃ n s1, (SegmentedHSP.init hit_id query_id [] alphabet).len_dunder =
        Except.ok (LenResult.int n, s1)) ∧
    (SegmentedHSP.init hit_id query_id [] alphabet).pyLen =
      Except.error (PyErr.typeError "an integer is required") := by
  refine ⟨rfl, ?_, rfl⟩
  rintro ⟨n, s1, hc⟩
  rw [show (SegmentedHSP.init hit_id query_id [] alphabet).len_dunder =
      Except.ok (LenResult.pylist [], SegmentedHSP.init hit_id query_id [] alphabet)
      from rfl] at hc
  simp at hc

/-- Claim C10 witness at a concrete input. -/
theorem segmented_len_fallback_C10_witness :
    (SegmentedHSP.init "h" "q" [] "dna").len_dunder =
      Except.ok (LenResult.pylist [], SegmentedHSP.init "h" "q" [] "dna") ∧
    (¬ ∃ n s1, (SegmentedHSP.init "h" "q" [] "dna").len_dunder =
        Except.ok (LenResult.int n, s1)) ∧
    (SegmentedHSP.init "h" "q" [] "dna").pyLen =
      Except.error (PyErr.typeError "an integer is required") :=
  segmented_len_fallback_C10 "h" "q" "dna"

/-- Claim C3: setting a QueryResult's id cascades to every contained Hit's
query_id, and setting a Hit's id cascades to every owned HSP's hit_id, so
the containment invariant is re-established after the mutation. -/
theorem id_mutation_cascades_C3 (q : QueryResult) (h : Hit) (v : String) :
    ((q.id_set v)._id = v ∧ ∀ p ∈ (q.id_set v)._hits, p.2._query_id = v) ∧
    ((h.id_set v)._id = v ∧ ∀ s ∈ (h.id_set v)._hsps, s.hit_id = v) := by
  refine ⟨⟨rfl, ?_⟩, ⟨rfl, ?_⟩⟩
  · intro p hp
    simp only [QueryResult.id_set, List.mem_map] at hp
    obtain ⟨p0, _, hpe⟩ := hp
    subst hpe
    rfl
  · intro s hs
    simp only [Hit.id_set, List.mem_map] at hs
    obtain ⟨s0, _, hse⟩ := hs
    subst hse
    rfl

/-- An example HSP owned by the example hit hitA. -/
def exHSP1 : HSP :=
  HSP.base_init "hitA" "q1" (PySeq.str "") (PySeq.str "") single_letter_alphabet

/-- An example HSP owned by the example hit hitB. -/
def exHSP2 : HSP :=
  HSP.base_init "hitB" "q1" (PySeq.str "") (PySeq.str "") single_letter_alphabet

/-- Example hit A of query q1, with one sticky attribute. -/
def exHitA : Hit :=
  { _id := "hitA"
    _query_id := "q1"
    _desc := "first hit"
    _hsps := [exHSP1]
    extra := [("seq_len", "500")] }

/-- Example hit B of query q1. -/
def exHitB : Hit :=
  { _id := "hitB"
    _query_id := "q1"
    _desc := "second hit"
    _hsps := [exHSP2, exHSP2]
    extra := [] }

/-- A hit belonging to a different query (query id q2). -/
def exHitX : Hit :=
  { _id := "hitX"
    _query_id := "q2"
    _desc := ""
    _hsps := []
    extra := [] }

/-- The default hit key function (`lambda hit: hit.id`). -/
def exKF : Hit → String := fun h => h._id

/-- An example QueryResult for query q1 holding hits A and B, with free
attributes and one sticky attribute set. -/
def exQR : QueryResult :=
  { _id := "q1"
    _hit_key_function := exKF
    _hits := [("hitA", exHitA), ("hitB", exHitB)]
    program := "blastn"
    target := "refseq"
    version := "2.2.26"
    _desc := "an example query"
    extra := [("seq_len", "1000")] }

/-- Claim C3 witness: the cascades evaluated on the example containers. -/
theorem id_mutation_cascades_C3_witness :
    ((exQR.id_set "X")._id = "X" ∧
      ∀ p ∈ (exQR.id_set "X")._hits, p.2._query_id = "X") ∧
    ((exHitA.id_set "X")._id = "X" ∧
      ∀ s ∈ (exHitA.id_set "X")._hsps, s.hit_id = "X") :=
  id_mutation_cascades_C3 exQR exHitA "X"

/-- Claim C4: appending or key-assigning a Hit whose query_id differs from
the QueryResult's id fails with a ValueError and returns with the backing
hit mapping (hence membership, order and length) exactly as before; item
assignment with a non-Hit value, or with a non-string key, fails with a
TypeError, also without mutating the container. -/
theorem reject_without_mutation_C4 (q : QueryResult) (h : Hit)
    (hneq : h._query_id ≠ q._id) :
    (∃ m, q.append h = (some (PyErr.valueError m), q)) ∧
    (∀ k : String, ∃ m,
      q.setitem (PyObj.str k) (PyObj.hit h) = (some (PyErr.valueError m), q)) ∧
    (∀ (k : String) (v : PyObj), (∀ hh : Hit, v ≠ PyObj.hit hh) →
      ∃ m, q.setitem (PyObj.str k) v = (some (PyErr.typeError m), q)) ∧
    (∀ (kv v : PyObj), (∀ s : String, kv ≠ PyObj.str s) →
      ∃ m, q.setitem kv v = (some (PyErr.typeError m), q)) := by
  refine ⟨?_, ?_, ?_, ?_⟩
  · by_cases hc : q.contains_key (q._hit_key_function h)
    · exact ⟨"Hit already present in this QueryResult.",
        by simp [QueryResult.append, hc]⟩
    · exact ⟨"Expected Hit with query ID equal to this id",
        by simp [QueryResult.append, hc, QueryResult.setitem, hneq]⟩
  · intro k
    exact ⟨"Expected Hit with query ID equal to this id",
      by simp [QueryResult.setitem, hneq]⟩
  · intro k v hv
    cases v with
    | str s => exact ⟨_, rfl⟩
    | int n => exact ⟨_, rfl⟩
    | hit hh => exact absurd rfl (hv hh)
  · intro kv v hkv
    cases kv with
    | str s => exact absurd rfl (hkv s)
    | int n => exact ⟨_, rfl⟩
    | hit hh => exact ⟨_, rfl⟩

/-- Claim C4 witness: rejection of the q2-hit by the q1 QueryResult. -/
theorem reject_without_mutation_C4_witness :
    (∃ m, exQR.append exHitX = (some (PyErr.valueError m), exQR)) ∧
    (∀ k : String, ∃ m,
      exQR.setitem (PyObj.str k) (PyObj.hit exHitX) = (some (PyErr.valueError m), exQR)) ∧
    (∀ (k : String) (v : PyObj), (∀ hh : Hit, v ≠ PyObj.hit hh) →
      ∃ m, exQR.setitem (PyObj.str k) v = (some (PyErr.typeError m), exQR)) ∧
    (∀ (kv v : PyObj), (∀ s : String, kv ≠ PyObj.str s) →
      ∃ m, exQR.setitem kv v = (some (PyErr.typeError m), exQR)) :=
  reject_without_mutation_C4 exQR exHitX (by decide)

/-- Well-keyedness of a QueryResult as established by append-based
construction: every stored key is the key function of its hit, every stored
hit belongs to this query, and the keys are pairwise distinct. -/
def QueryResult.WF (q : QueryResult) : Prop :=
  (∀ p ∈ q._hits, p.1 = q._hit_key_function p.2 ∧ p.2._query_id = q._id) ∧
  (q._hits.map Prod.fst).Nodup

/-- Claim C5: slicing a well-keyed QueryResult with bounds a, b succeeds
and yields a new QueryResult whose backing mapping is the corresponding
ordered sub-list of the parent's, whose length is b - a clamped to the
available range (as `min b n - min a n`), whose id equals the parent's, and
whose free and sticky attributes all equal the parent's.  (The source
computes the slice as a pure function of the parent, which is therefore
unchanged.) -/
theorem slice_preserves_attributes_C5 (q : QueryResult) (a b : Nat)
    (wf : q.WF) :
    ∃ q', q.getslice a b = Except.ok q' ∧
      q'._id = q._id ∧
      q'._hits = (q._hits.take b).drop a ∧
      q'._hits.length = min b q._hits.length - min a q._hits.length ∧
      q'.program = q.program ∧ q'.target = q.target ∧
      q'.version = q.version ∧ q'._desc = q._desc ∧ q'.extra = q.extra := by
  obtain ⟨wf1, wf2⟩ := wf
  have hsubl : ((q._hits.take b).drop a).Sublist q._hits :=
    (List.drop_sublist _ _).trans (List.take_sublist _ _)
  have hmem : ∀ p ∈ (q._hits.take b).drop a, p ∈ q._hits :=
    fun p hp => hsubl.subset hp
  have hlists : (q.hitsList.take b).drop a =
      ((q._hits.take b).drop a).map Prod.snd := by
    rw [QueryResult.hitsList, ← List.map_take, ← List.map_drop]
  have hq : ∀ h ∈ ((q._hits.take b).drop a).map Prod.snd, h._query_id = q._id := by
    intro h hh
    obtain ⟨p, hp, hpe⟩ := List.mem_map.mp hh
    subst hpe
    exact (wf1 p (hmem p hp)).2
  have hkeys : (((q._hits.take b).drop a).map Prod.snd).map q._hit_key_function =
      ((q._hits.take b).drop a).map Prod.fst := by
    rw [List.map_map]
    exact List.map_congr_left (fun p hp => ((wf1 p (hmem p hp)).1).symm)
  have hnd : ((((q._hits.take b).drop a).map Prod.snd).map q._hit_key_function).Nodup := by
    rw [hkeys]
    exact wf2.sublist (hsubl.map Prod.fst)
  have hinit := init_ok q._id q._hit_key_function
    (((q._hits.take b).drop a).map Prod.snd) hq hnd
  have hpairs : (((q._hits.take b).drop a).map Prod.snd).map
      (fun h => (q._hit_key_function h, h)) = (q._hits.take b).drop a :=
    pairs_id q._hit_key_function _ (fun p hp => (wf1 p (hmem p hp)).1)
  refine ⟨QueryResult.transfer_attrs q
    { QueryResult.initState q._id q._hit_key_function with
      _hits := (q._hits.take b).drop a }, ?_, rfl, rfl, ?_, rfl, rfl, rfl, rfl, rfl⟩
  · rw [QueryResult.getslice, hlists, hinit]
    show Except.ok _ = Except.ok _
    rw [hpairs]
  · show ((q._hits.take b).drop a).length = _
    simp only [List.length_drop, List.length_take]
    omega

/-- Claim C5 witness: slicing the example QueryResult with bounds 1, 2. -/
theorem slice_preserves_attributes_C5_witness :
    ∃ q', exQR.getslice 1 2 = Except.ok q' ∧
      q'._id = exQR._id ∧
      q'._hits = (exQR._hits.take 2).drop 1 ∧
      q'._hits.length = min 2 exQR._hits.length - min 1 exQR._hits.length ∧
      q'.program = exQR.program ∧ q'.target = exQR.target ∧
      q'.version = exQR.version ∧ q'._desc = exQR._desc ∧ q'.extra = exQR.extra :=
  slice_preserves_attributes_C5 exQR 1 2 ⟨by decide, by decide⟩

/-- Claim C7: QueryResult.sort with no comparison key is a structural
reorder only.  With reverse false the hit order is retained (for in-place
sorting, rebuilding the backing mapping reproduces it exactly, so the state
is unchanged; otherwise a new QueryResult with the same hit list and
propagated attributes is returned and self is unchanged); with reverse true
the order is exactly reversed.  No score is consulted in either case. -/
theorem sort_nokey_structural_C7 (q : QueryResult) (wf : q.WF) :
    q.sort_nokey false true = Except.ok (none, q) ∧
    q.sort_nokey true true =
      Except.ok (none, { q with _hits := q._hits.reverse }) ∧
    (∃ q', q.sort_nokey false false = Except.ok (some q', q) ∧
      q'._hits = q._hits ∧ q'._id = q._id ∧ q'.program = q.program ∧
      q'.target = q.target ∧ q'.version = q.version ∧ q'._desc = q._desc ∧
      q'.extra = q.extra) ∧
    (∃ q', q.sort_nokey true false = Except.ok (some q', q) ∧
      q'._hits = q._hits.reverse ∧ q'._id = q._id ∧ q'.program = q.program ∧
      q'.target = q.target ∧ q'.version = q.version ∧ q'._desc = q._desc ∧
      q'.extra = q.extra) := by
  obtain ⟨wf1, wf2⟩ := wf
  have hkeys : q.hitsList.map q._hit_key_function = q._hits.map Prod.fst := by
    rw [QueryResult.hitsList, List.map_map]
    exact List.map_congr_left (fun p hp => ((wf1 p hp).1).symm)
  have hndf : (q.hitsList.map q._hit_key_function).Nodup := by
    rw [hkeys]
    exact wf2
  have hpairsf : q.hitsList.map (fun h => (q._hit_key_function h, h)) = q._hits :=
    pairs_id q._hit_key_function q._hits (fun p hp => (wf1 p hp).1)
  have hkeysr : q.hitsList.reverse.map q._hit_key_function =
      (q._hits.map Prod.fst).reverse := by
    rw [List.map_reverse, hkeys]
  have hndr : (q.hitsList.reverse.map q._hit_key_function).Nodup := by
    rw [hkeysr]
    exact List.nodup_reverse.mpr wf2
  have hpairsr : q.hitsList.reverse.map (fun h => (q._hit_key_function h, h)) =
      q._hits.reverse := by
    rw [List.map_reverse, hpairsf]
  have hqidf : ∀ h ∈ q.hitsList, h._query_id = q._id := by
    intro h hh
    obtain ⟨p, hp, hpe⟩ := List.mem_map.mp hh
    subst hpe
    exact (wf1 p hp).2
  have hqidr : ∀ h ∈ q.hitsList.reverse, h._query_id = q._id := by
    intro h hh
    exact hqidf h (List.mem_reverse.mp hh)
  refine ⟨?_, ?_, ?_, ?_⟩
  · rw [QueryResult.sort_nokey]
    simp only [if_neg, Bool.false_eq_true, not_false_eq_true, if_true]
    rw [odBuild q._hit_key_function q.hitsList [] hndf (by simp)]
    rw [List.nil_append, hpairsf]
  · rw [QueryResult.sort_nokey]
    simp only [if_true]
    rw [odBuild q._hit_key_function q.hitsList.reverse [] hndr (by simp)]
    rw [List.nil_append, hpairsr]
  · refine ⟨QueryResult.transfer_attrs q
      { QueryResult.initState q._id q._hit_key_function with _hits := q._hits },
      ?_, rfl, rfl, rfl, rfl, rfl, rfl, rfl⟩
    rw [QueryResult.sort_nokey]
    simp only [Bool.false_eq_true, if_false]
    rw [init_ok q._id q._hit_key_function q.hitsList hqidf hndf]
    show Except.ok _ = Except.ok _
    rw [hpairsf]
  · refine ⟨QueryResult.transfer_attrs q
      { QueryResult.initState q._id q._hit_key_function with _hits := q._hits.reverse },
      ?_, rfl, rfl, rfl, rfl, rfl, rfl, rfl⟩
    rw [QueryResult.sort_nokey]
    simp only [if_true, Bool.false_eq_true, if_false]
    rw [init_ok q._id q._hit_key_function q.hitsList.reverse hqidr hndr]
    show Except.ok _ = Except.ok _
    rw [hpairsr]

/-- Claim C7 witness: structural sorting of the example QueryResult. -/
theorem sort_nokey_structural_C7_witness :
    exQR.sort_nokey false true = Except.ok (none, exQR) ∧
    exQR.sort_nokey true true =
      Except.ok (none, { exQR with _hits := exQR._hits.reverse }) ∧
    (∃ q', exQR.sort_nokey false false = Except.ok (some q', exQR) ∧
      q'._hits = exQR._hits ∧ q'._id = exQR._id ∧ q'.program = exQR.program ∧
      q'.target = exQR.target ∧ q'.version = exQR.version ∧
      q'._desc = exQR._desc ∧ q'.extra = exQR.extra) ∧
    (∃ q', exQR.sort_nokey true false = Except.ok (some q', exQR) ∧
      q'._hits = exQR._hits.reverse ∧ q'._id = exQR._id ∧
      q'.program = exQR.program ∧ q'.target = exQR.target ∧
      q'.version = exQR.version ∧ q'._desc = exQR._desc ∧
      q'.extra = exQR.extra) :=
  sort_nokey_structural_C7 exQR ⟨by decide, by decide⟩

/-- Claim C8: Hit.filter returns an absent value (None) whenever the
filtered HSP list is empty, Hit.map returns None when the mapped list is
empty (a Hit owning no HSPs), and both QueryResult.hsp_filter and
QueryResult.hsp_map treat such an absent result as "drop this hit",
rebuilding a QueryResult that contains only hits still owning at least one
HSP after the operation.  (`fm` is the mapped function; the `hmv`
hypothesis says it keeps each HSP's owner ids, which Hit validation
requires for the rebuild to succeed.) -/
theorem hsp_filter_drops_empty_C8 (q : QueryResult) (func : HSP → Bool)
    (fm : HSP → HSP)
    (wf : q.WF)
    (hv : ∀ h ∈ q.hitsList, ∀ s ∈ h._hsps,
      s.hit_id = h._id ∧ s.query_id = h._query_id)
    (hmv : ∀ h ∈ q.hitsList, ∀ s ∈ h._hsps,
      (fm s).hit_id = h._id ∧ (fm s).query_id = h._query_id)
    (hkf : q._hit_key_function = fun h => h._id) :
    (∀ (h : Hit) (g : HSP → Bool), h._hsps.filter g = [] →
      h.filter g = Except.ok none) ∧
    (∀ (h : Hit) (f : HSP → HSP), h._hsps = [] → Hit.map h f = Except.ok none) ∧
    (∃ q', q.hsp_filter func = Except.ok q' ∧
      q'.hitsList = (q.hitsList.filter
          (fun h => !(h._hsps.filter func).isEmpty)).map
        (fun h => { h with _hsps := h._hsps.filter func }) ∧
      ∀ h ∈ q'.hitsList, h._hsps ≠ []) ∧
    (∃ q', q.hsp_map fm = Except.ok q' ∧
      q'.hitsList = (q.hitsList.filter
          (fun h => !(h._hsps.map fm).isEmpty)).map
        (fun h => { h with _hsps := h._hsps.map fm }) ∧
      ∀ h ∈ q'.hitsList, h._hsps ≠ []) := by
  obtain ⟨wf1, wf2⟩ := wf
  have hids : q.hitsList.map (fun h => h._id) = q._hits.map Prod.fst := by
    rw [QueryResult.hitsList, List.map_map]
    refine List.map_congr_left (fun p hp => ?_)
    have h1 := (wf1 p hp).1
    rw [hkf] at h1
    exact h1.symm
  have hnd0 : (q.hitsList.map (fun h => h._id)).Nodup := by
    rw [hids]
    exact wf2
  refine ⟨?_, ?_, ?_, ?_⟩
  · intro h g hg
    simp [Hit.filter, hg]
  · intro h f hf
    simp [Hit.map, hf]
  · have hcoll := collectFilters_ok func q.hitsList hv
    have hfm := filterMap_if_map (fun h => { h with _hsps := h._hsps.filter func })
      (fun h => (h._hsps.filter func).isEmpty) q.hitsList
    have htr : ((q.hitsList.filter (fun h => !(h._hsps.filter func).isEmpty)).map
        (fun h => { h with _hsps := h._hsps.filter func })).filter Hit.truthy =
        (q.hitsList.filter (fun h => !(h._hsps.filter func).isEmpty)).map
          (fun h => { h with _hsps := h._hsps.filter func }) := by
      apply List.filter_eq_self.mpr
      intro h' hh'
      obtain ⟨h0, hh0, hpe⟩ := List.mem_map.mp hh'
      subst hpe
      have hsur := (List.mem_filter.mp hh0).2
      simpa [Hit.truthy] using hsur
    have hq' : ∀ h' ∈ (q.hitsList.filter
        (fun h => !(h._hsps.filter func).isEmpty)).map
        (fun h => { h with _hsps := h._hsps.filter func }), h'._query_id = q._id := by
      intro h' hh'
      obtain ⟨h0, hh0, hpe⟩ := List.mem_map.mp hh'
      subst hpe
      have hmem0 := (List.mem_filter.mp hh0).1
      obtain ⟨p, hp, hpe2⟩ := List.mem_map.mp hmem0
      subst hpe2
      exact (wf1 p hp).2
    have hkeys : (((q.hitsList.filter (fun h => !(h._hsps.filter func).isEmpty)).map
        (fun h => { h with _hsps := h._hsps.filter func })).map q._hit_key_function) =
        (q.hitsList.filter (fun h => !(h._hsps.filter func).isEmpty)).map
          (fun h => h._id) := by
      rw [hkf, List.map_map]
      exact List.map_congr_left (fun h0 _ => rfl)
    have hndk : ((((q.hitsList.filter (fun h => !(h._hsps.filter func).isEmpty)).map
        (fun h => { h with _hsps := h._hsps.filter func })).map
        q._hit_key_function)).Nodup := by
      rw [hkeys]
      exact hnd0.sublist ((q.hitsList.filter_sublist).map _)
    have hinit := init_ok q._id q._hit_key_function
      ((q.hitsList.filter (fun h => !(h._hsps.filter func).isEmpty)).map
        (fun h => { h with _hsps := h._hsps.filter func })) hq' hndk
    refine ⟨QueryResult.transfer_attrs q
      { QueryResult.initState q._id q._hit_key_function with
        _hits := ((q.hitsList.filter (fun h => !(h._hsps.filter func).isEmpty)).map
          (fun h => { h with _hsps := h._hsps.filter func })).map
          (fun h => (q._hit_key_function h, h)) }, ?_, ?_, ?_⟩
    · simp only [QueryResult.hsp_filter, hcoll, hfm, htr, hinit]
    · show (((q.hitsList.filter (fun h => !(h._hsps.filter func).isEmpty)).map
        (fun h => { h with _hsps := h._hsps.filter func })).map
          (fun h => (q._hit_key_function h, h))).map Prod.snd = _
      simp [List.map_map, Function.comp]
    · intro h' hh'
      simp only [QueryResult.hitsList, QueryResult.transfer_attrs, List.map_map,
        Function.comp] at hh'
      obtain ⟨h0, hh0, hpe⟩ := List.mem_map.mp hh'
      have hsur := (List.mem_filter.mp hh0).2
      intro hcontra
      rw [← hpe] at hcontra
      have hc2 : h0._hsps.filter func = [] := hcontra
      rw [hc2] at hsur
      simp at hsur
  · have hcoll := collectMaps_ok fm q.hitsList hmv
    have hfmm := filterMap_if_map (fun h => { h with _hsps := h._hsps.map fm })
      (fun h => (h._hsps.map fm).isEmpty) q.hitsList
    have htr : ((q.hitsList.filter (fun h => !(h._hsps.map fm).isEmpty)).map
        (fun h => { h with _hsps := h._hsps.map fm })).filter Hit.truthy =
        (q.hitsList.filter (fun h => !(h._hsps.map fm).isEmpty)).map
          (fun h => { h with _hsps := h._hsps.map fm }) := by
      apply List.filter_eq_self.mpr
      intro h' hh'
      obtain ⟨h0, hh0, hpe⟩ := List.mem_map.mp hh'
      subst hpe
      have hsur := (List.mem_filter.mp hh0).2
      simpa [Hit.truthy] using hsur
    have hq' : ∀ h' ∈ (q.hitsList.filter
        (fun h => !(h._hsps.map fm).isEmpty)).map
        (fun h => { h with _hsps := h._hsps.map fm }), h'._query_id = q._id := by
      intro h' hh'
      obtain ⟨h0, hh0, hpe⟩ := List.mem_map.mp hh'
      subst hpe
      have hmem0 := (List.mem_filter.mp hh0).1
      obtain ⟨p, hp, hpe2⟩ := List.mem_map.mp hmem0
      subst hpe2
      exact (wf1 p hp).2
    have hkeys : (((q.hitsList.filter (fun h => !(h._hsps.map fm).isEmpty)).map
        (fun h => { h with _hsps := h._hsps.map fm })).map q._hit_key_function) =
        (q.hitsList.filter (fun h => !(h._hsps.map fm).isEmpty)).map
          (fun h => h._id) := by
      rw [hkf, List.map_map]
      exact List.map_congr_left (fun h0 _ => rfl)
    have hndk : ((((q.hitsList.filter (fun h => !(h._hsps.map fm).isEmpty)).map
        (fun h => { h with _hsps := h._hsps.map fm })).map
        q._hit_key_function)).Nodup := by
      rw [hkeys]
      exact hnd0.sublist ((q.hitsList.filter_sublist).map _)
    have hinit := init_ok q._id q._hit_key_function
      ((q.hitsList.filter (fun h => !(h._hsps.map fm).isEmpty)).map
        (fun h => { h with _hsps := h._hsps.map fm })) hq' hndk
    refine ⟨QueryResult.transfer_attrs q
      { QueryResult.initState q._id q._hit_key_function with
        _hits := ((q.hitsList.filter (fun h => !(h._hsps.map fm).isEmpty)).map
          (fun h => { h with _hsps := h._hsps.map fm })).map
          (fun h => (q._hit_key_function h, h)) }, ?_, ?_, ?_⟩
    · simp only [QueryResult.hsp_map, hcoll, hfmm, htr, hinit]
    · show (((q.hitsList.filter (fun h => !(h._hsps.map fm).isEmpty)).map
        (fun h => { h with _hsps := h._hsps.map fm })).map
          (fun h => (q._hit_key_function h, h))).map Prod.snd = _
      simp [List.map_map, Function.comp]
    · intro h' hh'
      simp only [QueryResult.hitsList, QueryResult.transfer_attrs, List.map_map,
        Function.comp] at hh'
      obtain ⟨h0, hh0, hpe⟩ := List.mem_map.mp hh'
      have hsur := (List.mem_filter.mp hh0).2
      intro hcontra
      rw [← hpe] at hcontra
      have hc2 : h0._hsps.map fm = [] := hcontra
      rw [hc2] at hsur
      simp at hsur

/-- A hit of query q1 that owns no HSPs (Python allows constructing one:
the hsps argument defaults to the empty list). -/
def exHitE : Hit :=
  { _id := "hitE"
    _query_id := "q1"
    _desc := ""
    _hsps := []
    extra := [] }

/-- An example QueryResult for query q1 holding hits A and B plus the
HSP-less hit E, used to exercise the drop-empty behaviour of hsp_filter
and hsp_map. -/
def exQR2 : QueryResult :=
  { _id := "q1"
    _hit_key_function := exKF
    _hits := [("hitA", exHitA), ("hitB", exHitB), ("hitE", exHitE)]
    program := "blastn"
    target := "refseq"
    version := "2.2.26"
    _desc := "an example query"
    extra := [("seq_len", "1000")] }

/-- Claim C8 witness: on the example QueryResult with an HSP-less hit E,
filtering with a predicate that keeps only hitA's HSPs drops hitB and
hitE, and mapping (with an id-preserving function) drops hitE; every
surviving hit still owns at least one HSP. -/
theorem hsp_filter_drops_empty_C8_witness :
    (∀ (h : Hit) (g : HSP → Bool), h._hsps.filter g = [] →
      h.filter g = Except.ok none) ∧
    (∀ (h : Hit) (f : HSP → HSP), h._hsps = [] → Hit.map h f = Except.ok none) ∧
    (∃ q', exQR2.hsp_filter (fun s => s.hit_id == "hitA") = Except.ok q' ∧
      q'.hitsList = (exQR2.hitsList.filter
          (fun h => !(h._hsps.filter (fun s => s.hit_id == "hitA")).isEmpty)).map
        (fun h => { h with
          _hsps := h._hsps.filter (fun s => s.hit_id == "hitA") }) ∧
      ∀ h ∈ q'.hitsList, h._hsps ≠ []) ∧
    (∃ q', exQR2.hsp_map (fun s => s.ident_num_set 1) = Except.ok q' ∧
      q'.hitsList = (exQR2.hitsList.filter
          (fun h => !(h._hsps.map (fun s => s.ident_num_set 1)).isEmpty)).map
        (fun h => { h with
          _hsps := h._hsps.map (fun s => s.ident_num_set 1) }) ∧
      ∀ h ∈ q'.hitsList, h._hsps ≠ []) :=
  hsp_filter_drops_empty_C8 exQR2 (fun s => s.hit_id == "hitA")
    (fun s => s.ident_num_set 1)
    ⟨by decide, by decide⟩ (by decide) (by decide) rfl
